import Mathlib

/-!
Verification of the tabular traffic-data ingestion and analytics engine of the
AI-Traffic-Monitoring-System repository.

The engine lives in two places in the source:
* `src/frontend/src/pages/Dashboard.jsx` — `simplePredictor`, the route/time
  aggregation effect, `statsByRoute`, `PredictionsPanel`, `MapView`, `onParsed`;
* `src/unnamed/part_001` (an admin page) — `importCSV` normalization,
  `recommendRoute`, the `stats` memo.

JavaScript numbers are modelled as rationals (`ℚ`).  All numeric inputs in the
counterexamples and witnesses below are small integers or simple fractions for
which IEEE-754 double arithmetic is either exact or provably within 1e-12 of
the rational value, far below every tolerance or strict gap used in a
statement, so no conclusion depends on the difference between doubles and
rationals.  `NaN` is represented by `Option.none` at coercion points
(JS `Number(x)` becomes `jsNumber? : JSVal → Option ℚ`).  JS `Date` parsing of
strings is implementation defined; it is abstracted as an arbitrary oracle
`dp : String → Option ℤ` (epoch milliseconds), over which all timestamp
theorems quantify.
-/

/-- A dynamically typed JavaScript cell value as delivered by PapaParse with
`dynamicTyping: true` (or by `JSON.parse`): a number, a string, `null`, or
`undefined` (a missing key).  Booleans and nested objects never reach the
numeric paths modelled here. -/
inductive JSVal where
  | num (q : ℚ)
  | str (s : String)
  | null
  | undef
deriving DecidableEq, Repr

namespace Traffic

/-- Numeric value of a list of decimal digit characters (most significant first). -/
def digitsVal (cs : List Char) : ℕ :=
  cs.foldl (fun a c => a * 10 + (c.toNat - 48)) 0

/-- JS `Number(string)` on the decimal fragment of the grammar: optional sign,
digits, optional fraction.  The empty / all-whitespace string coerces to `0`;
anything unparsable is `NaN` (`none`).  Exponents, hex literals and
`"Infinity"` are outside the inputs exercised here. -/
def parseNum? (s : String) : Option ℚ :=
  let cs := s.trim.toList
  if cs = [] then some 0
  else
    let signed : ℚ × List Char :=
      match cs with
      | '-' :: t => (-1, t)
      | '+' :: t => (1, t)
      | t => (1, t)
    let ip := signed.2.takeWhile Char.isDigit
    let rest := signed.2.dropWhile Char.isDigit
    match rest with
    | [] => if ip = [] then none else some (signed.1 * digitsVal ip)
    | '.' :: fp =>
      if fp.all Char.isDigit ∧ (ip ≠ [] ∨ fp ≠ []) then
        some (signed.1 * ((digitsVal ip : ℚ) + (digitsVal fp : ℚ) / 10 ^ fp.length))
      else none
    | _ => none

/-- JS `Number(v)`: numbers are themselves, `null` is `0`, `undefined` is `NaN`
(`none`), strings go through decimal coercion. -/
def jsNumber? : JSVal → Option ℚ
  | .num q => some q
  | .str s => parseNum? s
  | .null => some 0
  | .undef => none

/-- JS truthiness of a cell value. -/
def truthy : JSVal → Bool
  | .num q => q ≠ 0
  | .str s => s ≠ ""
  | .null => false
  | .undef => false

/-- JS `a || b`. -/
def jsOr (a b : JSVal) : JSVal := if truthy a then a else b

/-- JS `a ?? b`. -/
def jsNullish (a b : JSVal) : JSVal :=
  match a with
  | .null => b
  | .undef => b
  | v => v

/-- JS string coercion of a cell used as an object key.  Numeric keys are
rendered with an injective encoding of the rational; JS renders doubles
injectively too, and no claim inspects the text of a numeric key.  (The
cross-type collision where the string `"5"` and the number `5` map to the same
JS key is not modelled; `dynamicTyping` converts such cells to numbers before
they reach a key position.) -/
def jsKeyString : JSVal → String
  | .str s => s
  | .num q => "#" ++ toString q
  | .null => "null"
  | .undef => "undefined"

/-- Dashboard.jsx `isNumeric`:
`typeof v === "number" || (!isNaN(Number(v)) && v !== "" && v !== null)`. -/
def isNumeric : JSVal → Bool
  | .num _ => true
  | .str s => (parseNum? s).isSome && (s ≠ "")
  | .null => false
  | .undef => false

/-- Dashboard.jsx `tryParseDate`, with the implementation-defined
`new Date(string)` abstracted as the oracle `dp` (epoch ms):
`if (!v && v !== 0) return null; const d = new Date(v); if (!isNaN(d.getTime()))
return d; const n = Number(v); if (!isNaN(n) && n > 1e9) return new Date(n);
return null;`.  `new Date(number)` truncates to integral milliseconds. -/
def tryParseDate (dp : String → Option ℤ) : JSVal → Option ℤ
  | .null => none
  | .undef => none
  | .num q => some ⌊q⌋
  | .str s =>
      if s = "" then none
      else
        match dp s with
        | some t => some t
        | none =>
          match parseNum? s with
          | some n => if n > 1000000000 then some ⌊n⌋ else none
          | none => none

/-- A parsed dataset row as the Dashboard uses it: only the cells addressed by
the selected route, time and value columns are relevant
(`r[routeCol]`, `r[timeCol]`, `r[valueCol]`). -/
structure Row where
  routeCell : JSVal
  timeCell : JSVal
  valueCell : JSVal
deriving DecidableEq, Repr

/-! ### Generic JS-object bucket accumulation

Both aggregation loops in the source build a JS object of
`{ sum, count }` buckets with `if (!byK[k]) byK[k] = {sum:0,count:0};
if (contributes) { byK[k].sum += v; byK[k].count += 1; }`.  A JS object with
string keys preserves insertion order, so it is modelled as an association
list keyed by `κ`; `key? = none` means the row is skipped entirely (the time
view's `if (!d) return;`). -/

/-- One `sum += v; count += 1` step (skipped when the row contributes no value). -/
def bumpBucket (v? : Option ℚ) : ℚ × ℕ → ℚ × ℕ
  | (s, c) =>
    match v? with
    | some v => (s + v, c + 1)
    | none => (s, c)

/-- Update the bucket for key `k`, creating it at the end (JS insertion order)
if absent. -/
def updateBuckets {κ : Type} [DecidableEq κ] (m : List (κ × ℚ × ℕ)) (k : κ)
    (v? : Option ℚ) : List (κ × ℚ × ℕ) :=
  match m with
  | [] => [(k, bumpBucket v? (0, 0))]
  | (k', b) :: rest =>
    if k' = k then (k', bumpBucket v? b) :: rest
    else (k', b) :: updateBuckets rest k v?

/-- Process one row of the `forEach` loop. -/
def stepBucket {α κ : Type} [DecidableEq κ] (key? : α → Option κ)
    (val? : α → Option ℚ) (m : List (κ × ℚ × ℕ)) (a : α) : List (κ × ℚ × ℕ) :=
  match key? a with
  | none => m
  | some k => updateBuckets m k (val? a)

/-- The whole `forEach` accumulation over a row list, starting from `{}`. -/
def foldBuckets {α κ : Type} [DecidableEq κ] (key? : α → Option κ)
    (val? : α → Option ℚ) (rows : List α) : List (κ × ℚ × ℕ) :=
  rows.foldl (stepBucket key? val?) []

/-- JS object lookup `byK[k]`. -/
def findBucket {κ : Type} [DecidableEq κ] (m : List (κ × ℚ × ℕ)) (k : κ) :
    Option (ℚ × ℕ) :=
  match m with
  | [] => none
  | (k', b) :: rest => if k' = k then some b else findBucket rest k

/-- JS `Object.keys(byK)` (insertion order). -/
def bucketKeys {κ : Type} (m : List (κ × ℚ × ℕ)) : List κ := m.map Prod.fst

/-- The values the rows hitting key `k` contribute to its bucket. -/
def contribVals {α κ : Type} [DecidableEq κ] (key? : α → Option κ)
    (val? : α → Option ℚ) (rows : List α) (k : κ) : List ℚ :=
  (rows.filter (fun a => key? a = some k)).filterMap val?

/-! ### Dashboard route aggregation and statistics -/

/-- Dashboard route key: `const route = r[routeCol] ?? "Unknown"`, then used as
a JS object key (string coercion). -/
def dashRouteKey (r : Row) : String :=
  jsKeyString (jsNullish r.routeCell (.str "Unknown"))

/-- Dashboard contribution test and value:
`const v = isNumeric(r[valueCol]) ? Number(r[valueCol]) : null;` followed by
`if (v !== null && !Number.isNaN(v))`. -/
def dashValue? (r : Row) : Option ℚ :=
  if isNumeric r.valueCell then jsNumber? r.valueCell else none

/-- The Dashboard `byRoute` object. -/
def dashRouteAgg (rows : List Row) : List (String × ℚ × ℕ) :=
  foldBuckets (fun r => some (dashRouteKey r)) dashValue? rows

/-- JS `+(q).toFixed(2)`: round to two decimal places (half away handled as
half-up; the inputs below are nowhere near a tie). -/
def toFixed2 (q : ℚ) : ℚ := (⌊q * 100 + 1 / 2⌋ : ℚ) / 100

/-- One entry of Dashboard `statsByRoute`. -/
structure RouteStat where
  route : String
  avg : Option ℚ
  count : ℕ
deriving DecidableEq, Repr

/-- Dashboard `stats`:
`Object.keys(byRoute).map(route => { const {sum, count} = byRoute[route];
return { route, avg: count > 0 ? +(sum / count).toFixed(2) : null, count }; })`. -/
def statsByRoute (rows : List Row) : List RouteStat :=
  (bucketKeys (dashRouteAgg rows)).map fun k =>
    let b := (findBucket (dashRouteAgg rows) k).getD (0, 0)
    { route := k
      avg := if b.2 > 0 then some (toFixed2 (b.1 / (b.2 : ℚ))) else none
      count := b.2 }

/-! ### Dashboard `simplePredictor` -/

/-- Source: `groups.map(g => g.avg).filter(v => typeof v === "number")`. -/
def definedAvgs (groups : List RouteStat) : List ℚ :=
  groups.filterMap RouteStat.avg

/-- Source: `[...avgs].sort((a, b) => a - b)`. -/
def sortedAvgs (groups : List RouteStat) : List ℚ :=
  List.insertionSort (· ≤ ·) (definedAvgs groups)

/-- Source: `sorted[Math.floor(sorted.length * 0.25)]`; `n * 0.25` is exact in doubles,
so the floor is `n / 4` in integer arithmetic.  Out-of-bounds JS indexing
would give `undefined`; the default `0` is never reached (see the C10
theorem). -/
def q1Of (groups : List RouteStat) : ℚ :=
  (sortedAvgs groups).getD ((sortedAvgs groups).length / 4) 0

/-- Source: `sorted[Math.floor(sorted.length * 0.75)]` = index `3n / 4`. -/
def q3Of (groups : List RouteStat) : ℚ :=
  (sortedAvgs groups).getD ((sortedAvgs groups).length * 3 / 4) 0

/-- Dashboard.jsx `simplePredictor` (lines 60–73), with the per-group label
chain `let pred = "Moderate"; if (typeof g.avg !== "number") pred = "NoData";
else if (g.avg >= q3) pred = "Heavy"; else if (g.avg <= q1) pred = "Light";`. -/
def simplePredictor (groups : List RouteStat) : List (RouteStat × String) :=
  if (definedAvgs groups).length = 0 then
    groups.map (fun g => (g, "Unknown"))
  else
    groups.map fun g =>
      match g.avg with
      | none => (g, "NoData")
      | some a =>
        (g, if a ≥ q3Of groups then "Heavy"
            else if a ≤ q1Of groups then "Light"
            else "Moderate")

/-- The labelling rule in the words of the specification: undefined average →
NoData; `avg ≥ Q3` → Heavy (checked first); `avg ≤ Q1` → Light; otherwise
Moderate. -/
def claimLabel (q1 q3 : ℚ) : Option ℚ → String
  | none => "NoData"
  | some a => if a ≥ q3 then "Heavy" else if a ≤ q1 then "Light" else "Moderate"

/-! ### Dashboard time-series view -/

/-- The minute bucket of a row: `const d = tryParseDate(r[timeCol]); if (!d)
return;` followed by `const key = d.toISOString().slice(0, 16)`.  The
ISO-string prefix `"YYYY-MM-DDTHH:MM"` identifies the minute, so the key is
modelled as the epoch-minute number `⌊t / 60000⌋`; two timestamps share a
bucket iff they share this number, and lexicographic order on the fixed-width
ISO prefixes coincides with numeric order on it. -/
def minuteKey? (dp : String → Option ℤ) (r : Row) : Option ℤ :=
  (tryParseDate dp r.timeCell).map (fun t => Int.fdiv t 60000)

/-- The Dashboard `byDate` object. -/
def dashTimeAgg (dp : String → Option ℤ) (rows : List Row) : List (ℤ × ℚ × ℕ) :=
  foldBuckets (minuteKey? dp) dashValue? rows

/-- The values contributed to minute bucket `k`. -/
def timeVals (dp : String → Option ℤ) (rows : List Row) (k : ℤ) : List ℚ :=
  contribVals (minuteKey? dp) dashValue? rows k

/-- Dashboard `seriesData`:
`Object.keys(byDate).sort().map(k => ({ date: k,
value: +(byDate[k].sum / Math.max(1, byDate[k].count)).toFixed(2) }))`. -/
def timeSeries (dp : String → Option ℤ) (rows : List Row) : List (ℤ × ℚ) :=
  (List.insertionSort (· ≤ ·) (bucketKeys (dashTimeAgg dp rows))).map fun k =>
    (k, toFixed2 (((findBucket (dashTimeAgg dp rows) k).getD (0, 0)).1 /
          ((max 1 ((findBucket (dashTimeAgg dp rows) k).getD (0, 0)).2 : ℕ) : ℚ)))

/-- Dashboard `onParsed` installs the parsed batch wholesale:
`setRows(data || []);` — the previous row state is discarded. -/
def onParsedRows (data _prev : List Row) : List Row := data

/-- MapView per-row marker predicate: `const lat = Number(r[latCol]); const lng
= Number(r[lngCol]); if (!isFinite(lat) || !isFinite(lng)) return null;` —
a marker is rendered exactly when both cells coerce to (finite) numbers; the
model's parsed numbers are always finite, `NaN` is `none`. -/
def rendersMarker (latCell lngCell : JSVal) : Bool :=
  (jsNumber? latCell).isSome && (jsNumber? lngCell).isSome

/-! ### part_001 admin page: `importCSV` normalization and dataset state -/

/-- A raw parsed record as `importCSV` reads it: only the header-name fields
its normalizer probes.  Absent columns are `undef`. -/
structure RawRec where
  route : JSVal := .undef
  Road : JSVal := .undef
  link : JSVal := .undef
  segment : JSVal := .undef
  road : JSVal := .undef
  timestamp : JSVal := .undef
  time : JSVal := .undef
  date : JSVal := .undef
  datetime : JSVal := .undef
  value : JSVal := .undef
  congestion : JSVal := .undef
  count : JSVal := .undef
  flow : JSVal := .undef
  vehicles : JSVal := .undef
  lat : JSVal := .undef
  latitude : JSVal := .undef
  start_lat : JSVal := .undef
  lng : JSVal := .undef
  longitude : JSVal := .undef
  start_lng : JSVal := .undef
deriving DecidableEq, Repr

/-- A normalized row of the part_001 page (the shape `importCSV` produces; rows
pasted as JSON can carry arbitrary cells, so every field stays a `JSVal`). -/
structure P1Row where
  route : JSVal
  timestamp : JSVal
  value : JSVal
  lat : JSVal
  lng : JSVal
deriving DecidableEq, Repr

/-- JS `Number(x) || null`: the coercion used for `value`, `lat` and `lng` in
`importCSV` — `NaN` and `0` are both falsy and collapse to `null`. -/
def numOrNull (x : JSVal) : JSVal :=
  match jsNumber? x with
  | some q => if q = 0 then .null else .num q
  | none => .null

/-- The route cell picked by `importCSV`:
`o.route || o.Road || o.link || o.segment || o.road || "Unknown"`. -/
def rawRouteCell (o : RawRec) : JSVal :=
  jsOr o.route (jsOr o.Road (jsOr o.link (jsOr o.segment (jsOr o.road (.str "Unknown")))))

/-- The latitude cell picked by `importCSV`: `o.lat || o.latitude || o.start_lat`. -/
def rawLatCell (o : RawRec) : JSVal := jsOr o.lat (jsOr o.latitude o.start_lat)

/-- The longitude cell picked by `importCSV`: `o.lng || o.longitude || o.start_lng`. -/
def rawLngCell (o : RawRec) : JSVal := jsOr o.lng (jsOr o.longitude o.start_lng)

/-- The value cell picked by `importCSV`:
`o.value ?? o.congestion ?? o.count ?? o.flow ?? o.vehicles`. -/
def rawValueCell (o : RawRec) : JSVal :=
  jsNullish o.value (jsNullish o.congestion (jsNullish o.count (jsNullish o.flow o.vehicles)))

/-- part_001 `importCSV` per-record normalization (lines 500–511), with
`nowTs` standing for the `nowISO()` fallback timestamp string. -/
def normalizeP1 (nowTs : JSVal) (o : RawRec) : P1Row :=
  { route := rawRouteCell o
    timestamp := jsOr o.timestamp (jsOr o.time (jsOr o.date (jsOr o.datetime nowTs)))
    value := numOrNull (rawValueCell o)
    lat := numOrNull (rawLatCell o)
    lng := numOrNull (rawLngCell o) }

/-- part_001 `importCSV` state update:
`setRows(prev => [...normalized, ...prev].slice(0, 200000))` — the new batch
is prepended to the previous rows and capped. -/
def importCSVRows (nowTs : JSVal) (parsed : List RawRec) (prev : List P1Row) :
    List P1Row :=
  (parsed.map (normalizeP1 nowTs) ++ prev).take 200000

/-! ### part_001 aggregation (`stats` memo) and `recommendRoute` -/

/-- part_001 route key: `const route = r.route || "Unknown"` (truthiness, so an
empty-string route also becomes `"Unknown"` here), string-coerced as a key. -/
def p1RouteKey (r : P1Row) : String := jsKeyString (jsOr r.route (.str "Unknown"))

/-- part_001 `stats` contribution: `const v = Number(r.value || 0);` guarded by
`if (!Number.isNaN(v))` — a `null` (or otherwise falsy) value coerces to `0`
and is counted. -/
def p1StatsValue? (r : P1Row) : Option ℚ := jsNumber? (jsOr r.value (.num 0))

/-- The part_001 `byRoute` object of the `stats` memo (lines 640–654). -/
def p1RouteAgg (rows : List P1Row) : List (String × ℚ × ℕ) :=
  foldBuckets (fun r => some (p1RouteKey r)) p1StatsValue? rows

/-- part_001 `routeStats`: `Object.keys(byRoute).map(k => ({ route: k,
avg: byRoute[k].count ? +(byRoute[k].sum / byRoute[k].count).toFixed(2) : 0 }))`. -/
def p1RouteStats (rows : List P1Row) : List (String × ℚ) :=
  (bucketKeys (p1RouteAgg rows)).map fun k =>
    (k, if ((findBucket (p1RouteAgg rows) k).getD (0, 0)).2 ≠ 0 then
          toFixed2 (((findBucket (p1RouteAgg rows) k).getD (0, 0)).1 /
            ((((findBucket (p1RouteAgg rows) k).getD (0, 0)).2 : ℕ) : ℚ))
        else 0)

/-- The `recommendRoute` contribution: `const v = Number(r.value);` guarded by
`if (!Number.isNaN(v))` — again `Number(null) = 0` is counted. -/
def p1RecValue? (r : P1Row) : Option ℚ := jsNumber? r.value

/-- The `recommendRoute` `byRoute` object (lines 584–592). -/
def p1RecAgg (rows : List P1Row) : List (String × ℚ × ℕ) :=
  foldBuckets (fun r => some (p1RouteKey r)) p1RecValue? rows

/-- Source: `avg: byRoute[route].count ? byRoute[route].sum / byRoute[route].count :
Infinity` — `none` stands for `Infinity`. -/
def p1RouteAvgs (rows : List P1Row) : List (String × Option ℚ) :=
  (bucketKeys (p1RecAgg rows)).map fun k =>
    (k, if ((findBucket (p1RecAgg rows) k).getD (0, 0)).2 ≠ 0 then
          some (((findBucket (p1RecAgg rows) k).getD (0, 0)).1 /
            ((((findBucket (p1RecAgg rows) k).getD (0, 0)).2 : ℕ) : ℚ))
        else none)

/-- The comparator `(a, b) => a.avg - b.avg` as a total order with
`Infinity` (`none`) at the top. -/
def avgLe : Option ℚ → Option ℚ → Bool
  | none, none => true
  | none, some _ => false
  | some _, none => true
  | some a, some b => a ≤ b

/-- The relation form of `avgLe` on average-annotated routes. -/
def AvgLE (a b : String × Option ℚ) : Prop := avgLe a.2 b.2 = true

instance : DecidableRel AvgLE := fun a b => decEq (avgLe a.2 b.2) true

instance : IsTotal (String × Option ℚ) AvgLE :=
  ⟨by
    intro a b
    rcases a with ⟨_, _ | x⟩ <;> rcases b with ⟨_, _ | y⟩ <;> simp [AvgLE, avgLe]
    exact le_total x y⟩

instance : IsTrans (String × Option ℚ) AvgLE :=
  ⟨by
    intro a b c
    rcases a with ⟨_, _ | x⟩ <;> rcases b with ⟨_, _ | y⟩ <;>
      rcases c with ⟨_, _ | z⟩ <;> simp [AvgLE, avgLe]
    exact le_trans⟩

/-- Source: `routeAvgs.sort((a, b) => a.avg - b.avg)` (stable, ascending; the
`Infinity - Infinity = NaN` comparator result keeps equal-`Infinity` entries in
place, as does a stable sort under `avgLe`). -/
def p1SortedAvgs (rows : List P1Row) : List (String × Option ℚ) :=
  List.insertionSort AvgLE (p1RouteAvgs rows)

/-- part_001 `recommendRoute` (lines 582–604), restricted to the route
identifiers it suggests: `routeAvgs.slice(0, 3).map(r => r.route)` (the
surrounding `est. %` text is presentation). -/
def recommendRoute (rows : List P1Row) : List String :=
  ((p1SortedAvgs rows).take 3).map Prod.fst

/-- The routes that qualify per the specification's recommender contract:
those with a defined numeric average, i.e. at least one non-null numeric
`value` cell in the route-aggregate sense. -/
def specQualifies (rows : List P1Row) (k : String) : Prop :=
  ∃ r ∈ rows, p1RouteKey r = k ∧ r.value ≠ .null ∧ (jsNumber? r.value).isSome

instance (rows : List P1Row) (k : String) : Decidable (specQualifies rows k) :=
  inferInstanceAs (Decidable (∃ r ∈ rows, _ ∧ _ ∧ _))

/-! ### Claim-side definitions (from the specification's wording) and the
concrete inputs used by counterexamples and witnesses -/

/-- The values of route `k`, grouped directly as the specification words it:
the non-null numeric values of the rows whose route key is `k`. -/
def routeVals (rows : List Row) (k : String) : List ℚ :=
  (rows.filter (fun r => dashRouteKey r = k)).filterMap dashValue?

/-- The direct arithmetic mean of route `k`'s non-null values (undefined when
there are none). -/
def directMean? (rows : List Row) (k : String) : Option ℚ :=
  if (routeVals rows k).length = 0 then none
  else some ((routeVals rows k).sum / ((routeVals rows k).length : ℚ))

/-- A one-route input exercising the quartile-bounds theorem. -/
def oneRouteGroups : List RouteStat := [{ route := "A", avg := some 5, count := 1 }]

/-- A route list with no defined numeric average. -/
def noAvgGroups : List RouteStat := [{ route := "A", avg := none, count := 0 }]

/-- A three-route input (two defined averages, one undefined) exercising the
classifier theorem. -/
def predGroups1 : List RouteStat :=
  [{ route := "A", avg := some 1, count := 1 },
   { route := "B", avg := some 2, count := 1 },
   { route := "C", avg := none, count := 0 }]

/-- Three rows of route `R` with values 1, 0, 0: the direct mean is 1/3. -/
def thirdRows : List Row :=
  [{ routeCell := .str "R", timeCell := .null, valueCell := .num 1 },
   { routeCell := .str "R", timeCell := .null, valueCell := .num 0 },
   { routeCell := .str "R", timeCell := .null, valueCell := .num 0 }]

/-- A null-valued part_001 row. -/
def nullValueP1Row : P1Row :=
  { route := .str "A", timestamp := .null, value := .null, lat := .null, lng := .null }

/-- A row whose timestamp is epoch millisecond 120000 (minute bucket 2). -/
def minuteRow : Row :=
  { routeCell := .str "A", timeCell := .num 120000, valueCell := .num 5 }

/-- A row without a parsable timestamp. -/
def nullTimeRow : Row :=
  { routeCell := .str "A", timeCell := .null, valueCell := .num 9 }

/-- A Dashboard row whose route cell is the empty string. -/
def emptyRouteRow : Row :=
  { routeCell := .str "", timeCell := .null, valueCell := .num 1 }

/-- A Dashboard row whose route cell is null. -/
def nullRouteRow : Row :=
  { routeCell := .null, timeCell := .null, valueCell := .num 1 }

/-- Two part_001 rows: route `A` with value 5, route `B` with a null value
(so `B` has no defined numeric average). -/
def recRowsCE : List P1Row :=
  [{ route := .str "A", timestamp := .null, value := .num 5, lat := .null, lng := .null },
   { route := .str "B", timestamp := .null, value := .null, lat := .null, lng := .null }]

/-- The `nowISO()` fallback timestamp used in ingestion examples. -/
def nowV : JSVal := .str "2024-01-01T00:00:00Z"

/-- Raw ingestion records for the dataset-replacement scenario. -/
def rawA : RawRec := { route := .str "A", value := .num 1 }

def rawB : RawRec := { route := .str "B", value := .num 2 }

def rawC : RawRec := { route := .str "C", value := .num 3 }

/-- A raw record with an out-of-range latitude (`lat: 95`) and a value. -/
def latRow95 : RawRec :=
  { route := .str "A", value := .num 7, lat := .num 95, lng := .num 30 }

/-! ### Lemmas about the generic bucket accumulation -/

section BucketLemmas

variable {α κ : Type} [DecidableEq κ]

theorem findBucket_updateBuckets_self (m : List (κ × ℚ × ℕ)) (k : κ) (v? : Option ℚ) :
    findBucket (updateBuckets m k v?) k =
      some (bumpBucket v? ((findBucket m k).getD (0, 0))) := by
  induction m with
  | nil => simp [updateBuckets, findBucket]
  | cons hd tl ih =>
    obtain ⟨k₀, b₀⟩ := hd
    by_cases h0 : k₀ = k
    · subst h0; simp [updateBuckets, findBucket]
    · simp [updateBuckets, findBucket, h0, ih]

theorem findBucket_updateBuckets_other (m : List (κ × ℚ × ℕ)) (k k' : κ)
    (v? : Option ℚ) (hne : k' ≠ k) :
    findBucket (updateBuckets m k v?) k' = findBucket m k' := by
  induction m with
  | nil =>
    simp only [updateBuckets, findBucket]
    rw [if_neg (fun h : k = k' => hne h.symm)]
  | cons hd tl ih =>
    obtain ⟨k₀, b₀⟩ := hd
    by_cases h0 : k₀ = k
    · subst h0
      simp only [updateBuckets, if_pos rfl, findBucket]
      rw [if_neg (fun h : k₀ = k' => hne h.symm), if_neg (fun h : k₀ = k' => hne h.symm)]
    · by_cases h1 : k₀ = k'
      · subst h1; simp [updateBuckets, findBucket, h0]
      · simp [updateBuckets, findBucket, h0, h1, ih]

theorem bucketKeys_updateBuckets (m : List (κ × ℚ × ℕ)) (k : κ) (v? : Option ℚ) :
    bucketKeys (updateBuckets m k v?) =
      if (findBucket m k).isSome then bucketKeys m else bucketKeys m ++ [k] := by
  induction m with
  | nil => simp [updateBuckets, findBucket, bucketKeys]
  | cons hd tl ih =>
    obtain ⟨k₀, b₀⟩ := hd
    by_cases h0 : k₀ = k
    · simp [updateBuckets, findBucket, bucketKeys, h0]
    · simp only [updateBuckets, findBucket, bucketKeys, if_neg h0, List.map_cons]
      by_cases hs : (findBucket tl k).isSome <;>
        simp [hs, bucketKeys] at ih ⊢ <;> simp [ih]

theorem findBucket_isSome_iff_mem (m : List (κ × ℚ × ℕ)) (k : κ) :
    (findBucket m k).isSome ↔ k ∈ bucketKeys m := by
  induction m with
  | nil => simp [findBucket, bucketKeys]
  | cons hd tl ih =>
    obtain ⟨k₀, b₀⟩ := hd
    by_cases h : k₀ = k
    · subst h; simp [findBucket, bucketKeys]
    · simp [findBucket, bucketKeys, Ne.symm h, h, ih]

theorem contribVals_cons (key? : α → Option κ) (val? : α → Option ℚ)
    (a : α) (rows : List α) (k : κ) :
    contribVals key? val? (a :: rows) k =
      if key? a = some k then
        match val? a with
        | some v => v :: contribVals key? val? rows k
        | none => contribVals key? val? rows k
      else contribVals key? val? rows k := by
  by_cases h : key? a = some k
  · rw [if_pos h, contribVals, List.filter_cons_of_pos (by simpa using h)]
    cases hv : val? a
    · rw [List.filterMap_cons_none hv]; rfl
    · rw [List.filterMap_cons_some hv]; rfl
  · rw [if_neg h, contribVals, List.filter_cons_of_neg (by simpa using h)]
    rfl

theorem findBucket_foldl (key? : α → Option κ) (val? : α → Option ℚ)
    (rows : List α) (k : κ) :
    ∀ m : List (κ × ℚ × ℕ),
      findBucket (rows.foldl (stepBucket key? val?) m) k =
        match findBucket m k with
        | some b =>
            some (b.1 + (contribVals key? val? rows k).sum,
                  b.2 + (contribVals key? val? rows k).length)
        | none =>
            if ∃ a ∈ rows, key? a = some k then
              some ((contribVals key? val? rows k).sum,
                    (contribVals key? val? rows k).length)
            else none := by
  induction rows with
  | nil =>
    intro m
    cases h : findBucket m k <;> simp [contribVals, h]
  | cons a rows ih =>
    intro m
    rw [List.foldl_cons, ih]
    rcases hka : key? a with _ | k''
    · have hne : ¬ key? a = some k := by simp [hka]
      have hstep : stepBucket key? val? m a = m := by simp [stepBucket, hka]
      rw [hstep, contribVals_cons, if_neg hne]
      cases h : findBucket m k
      · simp [hka, hne]
      · simp
    · have hstep : stepBucket key? val? m a = updateBuckets m k'' (val? a) := by
        simp [stepBucket, hka]
      by_cases hkk : k = k''
      · subst hkk
        have hk : key? a = some k := hka
        have hex : ∃ x ∈ a :: rows, key? x = some k :=
          ⟨a, List.mem_cons_self a rows, hk⟩
        rw [hstep, findBucket_updateBuckets_self, contribVals_cons, if_pos hk]
        cases h : findBucket m k with
        | none =>
          cases hv : val? a with
          | none =>
            simp only [h, Option.getD_none, bumpBucket, hv, if_pos hex, zero_add,
              Nat.zero_add]
          | some v =>
            simp only [h, Option.getD_none, bumpBucket, hv, if_pos hex,
              List.sum_cons, List.length_cons]
            refine congrArg some (Prod.ext ?_ ?_) <;> dsimp
            · ring
            · omega
        | some b =>
          obtain ⟨s, c⟩ := b
          cases hv : val? a with
          | none => simp only [h, Option.getD_some, bumpBucket, hv]
          | some v =>
            simp only [h, Option.getD_some, bumpBucket, hv, List.sum_cons,
              List.length_cons]
            refine congrArg some (Prod.ext ?_ ?_) <;> dsimp
            · ring
            · omega
      · have hne : ¬ key? a = some k := by
          rw [hka]; exact fun h => hkk (Option.some.inj h).symm
        rw [hstep, findBucket_updateBuckets_other _ _ _ _ hkk,
          contribVals_cons, if_neg hne]
        have hiff : (∃ x ∈ a :: rows, key? x = some k) ↔
            (∃ x ∈ rows, key? x = some k) := by
          simp only [List.mem_cons]
          constructor
          · rintro ⟨x, hx | hx, hxk⟩
            · exact absurd (hx ▸ hxk) hne
            · exact ⟨x, hx, hxk⟩
          · rintro ⟨x, hx, hxk⟩; exact ⟨x, Or.inr hx, hxk⟩
        cases h : findBucket m k
        · simp only [hiff]
        · rfl

theorem findBucket_foldBuckets (key? : α → Option κ) (val? : α → Option ℚ)
    (rows : List α) (k : κ) :
    findBucket (foldBuckets key? val? rows) k =
      if ∃ a ∈ rows, key? a = some k then
        some ((contribVals key? val? rows k).sum,
              (contribVals key? val? rows k).length)
      else none := by
  rw [foldBuckets, findBucket_foldl]
  simp [findBucket]

/-- Membership in the accumulated keys is exactly having a hit among the rows. -/
theorem mem_bucketKeys_foldBuckets (key? : α → Option κ) (val? : α → Option ℚ)
    (rows : List α) (k : κ) :
    k ∈ bucketKeys (foldBuckets key? val? rows) ↔ ∃ a ∈ rows, key? a = some k := by
  rw [← findBucket_isSome_iff_mem, findBucket_foldBuckets]
  by_cases h : ∃ a ∈ rows, key? a = some k <;> simp [h]

end BucketLemmas

/-! ### Small helper lemmas about the JS primitives -/

theorem truthy_jsOr (a b : JSVal) : truthy (jsOr a b) = (truthy a || truthy b) := by
  cases h : truthy a <;> simp [jsOr, h]

theorem map_fst_pairup {κ β : Type} (g : κ → β) (l : List κ) :
    (l.map (fun k => (k, g k))).map Prod.fst = l := by
  induction l <;> simp [*]

theorem importCSVRows_of_le (nowTs : JSVal) (parsed : List RawRec)
    (prev : List P1Row) (h : parsed.length + prev.length ≤ 200000) :
    importCSVRows nowTs parsed prev = parsed.map (normalizeP1 nowTs) ++ prev := by
  rw [importCSVRows]
  refine List.take_of_length_le ?_
  simp only [List.length_append, List.length_map]
  omega

/-! ## Claim C10 — quartile index accesses are in bounds -/

/-- C10: whenever the list of defined numeric averages is non-empty, the
quartile lookup indices `floor(n * 0.25)` and `floor(n * 0.75)` are strictly
below `n`, so `sorted[...]` is a defined element for both thresholds. -/
theorem quartile_indices_in_bounds (groups : List RouteStat)
    (h : 0 < (definedAvgs groups).length) :
    (sortedAvgs groups).length / 4 < (sortedAvgs groups).length ∧
    (sortedAvgs groups).length * 3 / 4 < (sortedAvgs groups).length ∧
    (sortedAvgs groups)[(sortedAvgs groups).length / 4]? = some (q1Of groups) ∧
    (sortedAvgs groups)[(sortedAvgs groups).length * 3 / 4]? = some (q3Of groups) := by
  have hlen : (sortedAvgs groups).length = (definedAvgs groups).length :=
    (List.perm_insertionSort _ _).length_eq
  have hpos : 0 < (sortedAvgs groups).length := hlen ▸ h
  have h1 : (sortedAvgs groups).length / 4 < (sortedAvgs groups).length :=
    Nat.div_lt_self hpos (by norm_num)
  have h3 : (sortedAvgs groups).length * 3 / 4 < (sortedAvgs groups).length := by
    rw [Nat.div_lt_iff_lt_mul (by norm_num)]
    omega
  refine ⟨h1, h3, ?_, ?_⟩
  · rw [List.getElem?_eq_getElem h1, q1Of, List.getD_eq_getElem _ _ h1]
  · rw [List.getElem?_eq_getElem h3, q3Of, List.getD_eq_getElem _ _ h3]

theorem quartile_indices_in_bounds_witness :
    0 < (definedAvgs oneRouteGroups).length ∧
    ((sortedAvgs oneRouteGroups).length / 4 < (sortedAvgs oneRouteGroups).length ∧
     (sortedAvgs oneRouteGroups).length * 3 / 4 < (sortedAvgs oneRouteGroups).length ∧
     (sortedAvgs oneRouteGroups)[(sortedAvgs oneRouteGroups).length / 4]? =
       some (q1Of oneRouteGroups) ∧
     (sortedAvgs oneRouteGroups)[(sortedAvgs oneRouteGroups).length * 3 / 4]? =
       some (q3Of oneRouteGroups)) :=
  ⟨by decide, quartile_indices_in_bounds oneRouteGroups (by decide)⟩

/-! ## Claim C4 — classifier output when no averages are defined -/

/-- C4 counterexample: with an empty defined-average subset the classifier
labels every route `"Unknown"`, not `"NoData"` as the claim states
(`return groups.map(g => ({...g, prediction: "Unknown"}))`). -/
theorem classifier_empty_label_counterexample :
    simplePredictor noAvgGroups =
      [({ route := "A", avg := none, count := 0 }, "Unknown")] ∧
    "Unknown" ≠ "NoData" := by decide

/-- C4 (amended): when the subset of routes with a defined numeric average is
empty, the classifier labels every route in the input `"Unknown"`. -/
theorem classifier_empty_label (groups : List RouteStat)
    (h : (definedAvgs groups).length = 0) :
    simplePredictor groups = groups.map (fun g => (g, "Unknown")) := by
  rw [simplePredictor, if_pos h]

theorem classifier_empty_label_witness :
    (definedAvgs noAvgGroups).length = 0 ∧
    simplePredictor noAvgGroups = noAvgGroups.map (fun g => (g, "Unknown")) :=
  ⟨by decide, classifier_empty_label noAvgGroups (by decide)⟩

/-! ## Claim C1 — the quartile classifier -/

/-- C1: with at least one defined numeric average, `simplePredictor` sorts the
defined averages ascending, takes Q1 at index `floor(n * 0.25)` and Q3 at
`floor(n * 0.75)` of the sorted list (nearest rank, no interpolation), and
labels every route by: undefined average → NoData; `avg ≥ Q3` → Heavy;
`avg ≤ Q1` → Light; otherwise Moderate — the Heavy comparison first, so a
value exactly equal to Q3 is Heavy. -/
theorem simplePredictor_spec (groups : List RouteStat)
    (h : 0 < (definedAvgs groups).length) :
    ∃ L : List ℚ, L.Perm (definedAvgs groups) ∧ L.Sorted (· ≤ ·) ∧
      q1Of groups = L.getD (L.length / 4) 0 ∧
      q3Of groups = L.getD (L.length * 3 / 4) 0 ∧
      simplePredictor groups =
        groups.map (fun g => (g, claimLabel (q1Of groups) (q3Of groups) g.avg)) ∧
      (∀ a : ℚ, q3Of groups ≤ a →
        claimLabel (q1Of groups) (q3Of groups) (some a) = "Heavy") := by
  refine ⟨sortedAvgs groups, List.perm_insertionSort _ _,
    List.sorted_insertionSort _ _, rfl, rfl, ?_, ?_⟩
  · rw [simplePredictor, if_neg (Nat.pos_iff_ne_zero.mp h)]
    refine List.map_congr_left ?_
    intro g _
    cases hga : g.avg <;> simp [claimLabel, hga]
  · intro a ha
    simp [claimLabel, ha]

theorem simplePredictor_spec_witness :
    0 < (definedAvgs predGroups1).length ∧
    (∃ L : List ℚ, L.Perm (definedAvgs predGroups1) ∧ L.Sorted (· ≤ ·) ∧
      q1Of predGroups1 = L.getD (L.length / 4) 0 ∧
      q3Of predGroups1 = L.getD (L.length * 3 / 4) 0 ∧
      simplePredictor predGroups1 =
        predGroups1.map
          (fun g => (g, claimLabel (q1Of predGroups1) (q3Of predGroups1) g.avg)) ∧
      (∀ a : ℚ, q3Of predGroups1 ≤ a →
        claimLabel (q1Of predGroups1) (q3Of predGroups1) (some a) = "Heavy")) :=
  ⟨by decide, simplePredictor_spec predGroups1 (by decide)⟩

/-! ## Claim C3 — aggregation equals the direct mean -/

theorem contribVals_eq_routeVals (rows : List Row) (k : String) :
    contribVals (fun r => some (dashRouteKey r)) dashValue? rows k =
      routeVals rows k := by
  unfold contribVals routeVals
  congr 1
  apply List.filter_congr
  intro a _
  simp

/-- C3 counterexample: the *reported* per-route average is
`+(sum / count).toFixed(2)`, i.e. rounded to two decimals.  For values
`[1, 0, 0]` it reports `0.33` while the direct mean is `1/3`; they differ by
`1/300`, far beyond the claimed 1e-9 tolerance (double-precision evaluation of
these quantities is within 1e-15 of the rationals, so the gap is real). -/
theorem aggregate_mean_counterexample :
    (statsByRoute thirdRows).map (fun st => (st.route, st.avg)) =
      [("R", some (33 / 100))] ∧
    directMean? thirdRows "R" = some (1 / 3) ∧
    ¬ |(33 : ℚ) / 100 - 1 / 3| ≤ 1 / 1000000000 := by
  refine ⟨?_, ?_, ?_⟩
  · simp [statsByRoute, dashRouteAgg, foldBuckets, stepBucket, updateBuckets,
      bumpBucket, findBucket, bucketKeys, dashRouteKey, dashValue?, isNumeric,
      jsNumber?, jsKeyString, jsNullish, thirdRows, toFixed2]
    have hfl : (⌊((3 : ℚ))⁻¹ * 100 + 2⁻¹⌋ : ℤ) = 33 := by
      rw [Int.floor_eq_iff]
      norm_num
    rw [hfl]
    norm_num
  · simp [directMean?, routeVals, thirdRows, dashRouteKey, dashValue?,
      isNumeric, jsNumber?, jsKeyString, jsNullish]
  · have h : (33 : ℚ) / 100 - 1 / 3 = -(1 / 300) := by norm_num
    rw [h, abs_neg, abs_of_pos (by norm_num : (0 : ℚ) < 1 / 300)]
    norm_num

/-- C3 (amended): for each route with at least one non-null value, the
aggregated `sum / count` equals the direct per-route mean *exactly*; the
reported average in `statsByRoute` is that mean rounded to two decimal places
by `toFixed(2)` (so it tracks the direct mean only up to 0.005, not 1e-9). -/
theorem aggregate_mean (rows : List Row) (k : String) (s : ℚ) (c : ℕ)
    (h : findBucket (dashRouteAgg rows) k = some (s, c)) (hc : 0 < c) :
    some (s / (c : ℚ)) = directMean? rows k ∧
    ({ route := k, avg := some (toFixed2 (s / (c : ℚ))), count := c } : RouteStat) ∈
      statsByRoute rows := by
  rw [dashRouteAgg, findBucket_foldBuckets, contribVals_eq_routeVals] at h
  by_cases hex : ∃ a ∈ rows, (fun r => some (dashRouteKey r)) a = some k
  · rw [if_pos hex] at h
    obtain ⟨hs, hcl⟩ := Prod.mk.injEq .. ▸ Option.some.inj h
    constructor
    · rw [directMean?, if_neg (by omega), ← hs, ← hcl]
    · have hmem : k ∈ bucketKeys (dashRouteAgg rows) := by
        rw [← findBucket_isSome_iff_mem, dashRouteAgg, findBucket_foldBuckets,
          if_pos hex]
        rfl
      refine List.mem_map.mpr ⟨k, hmem, ?_⟩
      have hfb : findBucket (dashRouteAgg rows) k = some (s, c) := by
        rw [dashRouteAgg, findBucket_foldBuckets, contribVals_eq_routeVals,
          if_pos hex, hs, hcl]
      simp [statsByRoute, hfb, hc]
  · rw [if_neg hex] at h
    cases h

theorem aggregate_mean_witness :
    findBucket (dashRouteAgg thirdRows) "R" = some (1, 3) ∧ (0 : ℕ) < 3 ∧
    (some ((1 : ℚ) / ((3 : ℕ) : ℚ)) = directMean? thirdRows "R" ∧
     ({ route := "R", avg := some (toFixed2 ((1 : ℚ) / ((3 : ℕ) : ℚ))),
        count := 3 } : RouteStat) ∈ statsByRoute thirdRows) := by
  have hfb : findBucket (dashRouteAgg thirdRows) "R" = some (1, 3) := by
    simp [dashRouteAgg, foldBuckets, stepBucket, updateBuckets, bumpBucket,
      findBucket, dashRouteKey, dashValue?, isNumeric, jsNumber?, jsKeyString,
      jsNullish, thirdRows]
  exact ⟨hfb, by norm_num, aggregate_mean thirdRows "R" 1 3 hfb (by norm_num)⟩

/-! ## Claim C5 — bucket sum/count invariant -/

/-- C5 counterexample: the part_001 `stats` route view computes
`Number(r.value || 0)`, so a row whose `value` is null contributes `0` to the
sum *and is counted*: its bucket reads `count = 1` although zero rows carry a
non-null value. -/
theorem bucket_invariant_counterexample :
    findBucket (p1RouteAgg [nullValueP1Row]) "A" = some (0, 1) ∧
    ([nullValueP1Row].filter (fun r => r.value ≠ JSVal.null)).length = 0 ∧
    (1 : ℕ) ≠ 0 := by
  refine ⟨?_, by decide, by decide⟩
  simp [p1RouteAgg, foldBuckets, stepBucket, updateBuckets, bumpBucket,
    findBucket, p1RouteKey, p1StatsValue?, jsOr, truthy, jsNumber?,
    jsKeyString, nullValueP1Row]

/-- C5 (amended): in the Dashboard route-aggregate and time-series views every
bucket's `count` is exactly the number of rows contributing a non-null numeric
value to it and `sum` is the sum of exactly those values (so null-valued rows
change neither); the part_001 `stats` view deviates by coercing null values to
0 and counting them. -/
theorem bucket_invariant (dp : String → Option ℤ) (rows : List Row) (k : String)
    (mk : ℤ) (s s' : ℚ) (c c' : ℕ)
    (h : findBucket (dashRouteAgg rows) k = some (s, c))
    (h' : findBucket (dashTimeAgg dp rows) mk = some (s', c')) :
    s = (routeVals rows k).sum ∧ c = (routeVals rows k).length ∧
    s' = (timeVals dp rows mk).sum ∧ c' = (timeVals dp rows mk).length := by
  rw [dashRouteAgg, findBucket_foldBuckets, contribVals_eq_routeVals] at h
  rw [dashTimeAgg, findBucket_foldBuckets] at h'
  by_cases hex : ∃ a ∈ rows, (fun r => some (dashRouteKey r)) a = some k
  · rw [if_pos hex] at h
    by_cases hex' : ∃ a ∈ rows, minuteKey? dp a = some mk
    · rw [if_pos hex'] at h'
      obtain ⟨hs, hcl⟩ := Prod.mk.injEq .. ▸ Option.some.inj h
      obtain ⟨hs', hcl'⟩ := Prod.mk.injEq .. ▸ Option.some.inj h'
      exact ⟨hs.symm, hcl.symm, hs'.symm, hcl'.symm⟩
    · rw [if_neg hex'] at h'; cases h'
  · rw [if_neg hex] at h; cases h

theorem bucket_invariant_witness :
    findBucket (dashRouteAgg [minuteRow]) "A" = some (5, 1) ∧
    findBucket (dashTimeAgg (fun _ => none) [minuteRow]) 2 = some (5, 1) ∧
    ((5 : ℚ) = (routeVals [minuteRow] "A").sum ∧
     (1 : ℕ) = (routeVals [minuteRow] "A").length ∧
     (5 : ℚ) = (timeVals (fun _ => none) [minuteRow] 2).sum ∧
     (1 : ℕ) = (timeVals (fun _ => none) [minuteRow] 2).length) := by
  have h1 : findBucket (dashRouteAgg [minuteRow]) "A" = some (5, 1) := by
    simp [dashRouteAgg, foldBuckets, stepBucket, updateBuckets, bumpBucket,
      findBucket, dashRouteKey, dashValue?, isNumeric, jsNumber?, jsKeyString,
      jsNullish, minuteRow]
  have h2 : findBucket (dashTimeAgg (fun _ => none) [minuteRow]) 2 = some (5, 1) := by
    simp [dashTimeAgg, foldBuckets, stepBucket, updateBuckets, bumpBucket,
      findBucket, minuteKey?, tryParseDate, dashValue?, isNumeric, jsNumber?,
      minuteRow]
  exact ⟨h1, h2,
    bucket_invariant (fun _ => none) [minuteRow] "A" 2 5 5 1 1 h1 h2⟩

/-! ## Claim C7 — the materialized time series -/

/-- C7: for every date-parsing oracle and row set, the time series groups rows
by the minute-truncated timestamp key, is sorted ascending by that key, and a
row whose timestamp does not parse is excluded entirely — removing it from the
row list (wherever it sits) leaves the series unchanged, and each series entry
carries exactly its bucket's rounded average. -/
theorem timeSeries_spec (dp : String → Option ℤ) (rows l1 l2 : List Row) (r : Row)
    (h : tryParseDate dp r.timeCell = none) :
    ((timeSeries dp rows).map Prod.fst).Sorted (· ≤ ·) ∧
    timeSeries dp (l1 ++ r :: l2) = timeSeries dp (l1 ++ l2) ∧
    ∀ k v, (k, v) ∈ timeSeries dp rows →
      v = toFixed2 ((timeVals dp rows k).sum /
            ((max 1 (timeVals dp rows k).length : ℕ) : ℚ)) := by
  refine ⟨?_, ?_, ?_⟩
  · have hmap : (timeSeries dp rows).map Prod.fst =
        List.insertionSort (· ≤ ·) (bucketKeys (dashTimeAgg dp rows)) := by
      rw [timeSeries]
      exact map_fst_pairup _ _
    rw [hmap]
    exact List.sorted_insertionSort _ _
  · have hk : minuteKey? dp r = none := by simp [minuteKey?, h]
    have hskip : dashTimeAgg dp (l1 ++ r :: l2) = dashTimeAgg dp (l1 ++ l2) := by
      simp [dashTimeAgg, foldBuckets, List.foldl_append, stepBucket, hk]
    simp [timeSeries, hskip]
  · intro k v hkv
    rw [timeSeries] at hkv
    obtain ⟨k', hk', heq⟩ := List.mem_map.mp hkv
    injection heq with hk1 hv1
    subst hk1
    have hkmem : k' ∈ bucketKeys (dashTimeAgg dp rows) :=
      ((List.perm_insertionSort _ _).mem_iff).mp hk'
    have hex := (mem_bucketKeys_foldBuckets (minuteKey? dp) dashValue? rows k').mp hkmem
    have hfb : findBucket (dashTimeAgg dp rows) k' =
        some ((timeVals dp rows k').sum, (timeVals dp rows k').length) := by
      rw [dashTimeAgg, findBucket_foldBuckets, if_pos hex]
      rfl
    rw [← hv1, hfb]
    rfl

theorem timeSeries_spec_witness :
    tryParseDate (fun _ => none) nullTimeRow.timeCell = none ∧
    (((timeSeries (fun _ => none) [minuteRow]).map Prod.fst).Sorted (· ≤ ·) ∧
     timeSeries (fun _ => none) ([] ++ nullTimeRow :: [minuteRow]) =
       timeSeries (fun _ => none) ([] ++ [minuteRow]) ∧
     ∀ k v, (k, v) ∈ timeSeries (fun _ => none) [minuteRow] →
       v = toFixed2 ((timeVals (fun _ => none) [minuteRow] k).sum /
             ((max 1 (timeVals (fun _ => none) [minuteRow] k).length : ℕ) : ℚ))) :=
  ⟨rfl, timeSeries_spec (fun _ => none) [minuteRow] [] [minuteRow] nullTimeRow rfl⟩

/-! ## Claim C2 — the route recommender -/

/-- C2 counterexample: `recommendRoute` does not filter to routes with a
defined numeric average.  Route `B` has only a null `value` (no defined
average in the route-aggregate sense), yet `Number(null) = 0` makes its
computed average 0 and `recommendRoute` returns it — even first. -/
theorem recommendRoute_counterexample :
    recommendRoute recRowsCE = ["B", "A"] ∧
    ¬ specQualifies recRowsCE "B" ∧
    "B" ∈ recommendRoute recRowsCE := by
  have hrec : recommendRoute recRowsCE = ["B", "A"] := by
    simp [recommendRoute, p1SortedAvgs, p1RouteAvgs, p1RecAgg, p1RecValue?,
      p1RouteKey, foldBuckets, stepBucket, updateBuckets, bumpBucket,
      findBucket, bucketKeys, jsOr, truthy, jsNumber?, jsKeyString, recRowsCE,
      List.insertionSort, List.orderedInsert, AvgLE, avgLe]
    rw [if_neg (by norm_num : ¬ (5 : ℚ) ≤ 0)]
    decide
  refine ⟨hrec, by decide, by rw [hrec]; decide⟩

/-- C2 (amended): `recommendRoute` computes one average per distinct route key
— treating a null `value` as 0 and giving routes with no parseable value an
infinite average (`none`) — sorts the routes ascending by that average
(infinite last), and returns the first `min 3 _` route identifiers.  The
returned routes are all present in the input and are returned in ascending
order of the computed average, and whenever fewer than 3 are returned every
route of the input is among them; but routes without a defined numeric
average are *not* filtered out. -/
theorem recommendRoute_amended (rows : List P1Row) :
    (recommendRoute rows).length = min 3 (p1RouteAvgs rows).length ∧
    (∀ k ∈ recommendRoute rows, ∃ r ∈ rows, p1RouteKey r = k) ∧
    List.Sorted AvgLE ((p1SortedAvgs rows).take 3) ∧
    (∀ k, (∃ r ∈ rows, p1RouteKey r = k) → (recommendRoute rows).length < 3 →
      k ∈ recommendRoute rows) := by
  have hlen : (p1SortedAvgs rows).length = (p1RouteAvgs rows).length :=
    (List.perm_insertionSort _ _).length_eq
  have hkeys : (p1RouteAvgs rows).map Prod.fst = bucketKeys (p1RecAgg rows) := by
    rw [p1RouteAvgs]
    exact map_fst_pairup _ _
  refine ⟨?_, ?_, ?_, ?_⟩
  · simp [recommendRoute, List.length_take, hlen]
  · intro k hk
    obtain ⟨p, hp, hpk⟩ := List.mem_map.mp hk
    have hp' : p ∈ p1SortedAvgs rows := List.mem_of_mem_take hp
    have hp'' : p ∈ p1RouteAvgs rows :=
      ((List.perm_insertionSort _ _).mem_iff).mp hp'
    have hfst : p.1 ∈ bucketKeys (p1RecAgg rows) := by
      rw [← hkeys]
      exact List.mem_map_of_mem Prod.fst hp''
    obtain ⟨a, ha, hak⟩ :=
      (mem_bucketKeys_foldBuckets _ _ rows p.1).mp hfst
    exact ⟨a, ha, by rw [← hpk]; exact Option.some.inj hak⟩
  · exact List.Pairwise.sublist (List.take_sublist 3 _) (List.sorted_insertionSort _ _)
  · intro k hkin hlt
    have hNlt : (p1RouteAvgs rows).length < 3 := by
      rw [recommendRoute, List.length_map, List.length_take, hlen] at hlt
      omega
    have htake : (p1SortedAvgs rows).take 3 = p1SortedAvgs rows :=
      List.take_of_length_le (by omega)
    obtain ⟨a, ha, hak⟩ := hkin
    have hkmem : k ∈ bucketKeys (p1RecAgg rows) :=
      (mem_bucketKeys_foldBuckets _ _ rows k).mpr ⟨a, ha, by rw [hak]⟩
    have hkmem' : k ∈ (p1RouteAvgs rows).map Prod.fst := by rw [hkeys]; exact hkmem
    obtain ⟨p, hp, hpk⟩ := List.mem_map.mp hkmem'
    have hp' : p ∈ p1SortedAvgs rows :=
      ((List.perm_insertionSort _ _).mem_iff).mpr hp
    rw [recommendRoute, htake]
    exact hpk ▸ List.mem_map_of_mem Prod.fst hp'

theorem recommendRoute_amended_witness :
    (recommendRoute recRowsCE).length = min 3 (p1RouteAvgs recRowsCE).length ∧
    (∀ k ∈ recommendRoute recRowsCE, ∃ r ∈ recRowsCE, p1RouteKey r = k) ∧
    List.Sorted AvgLE ((p1SortedAvgs recRowsCE).take 3) ∧
    (∀ k, (∃ r ∈ recRowsCE, p1RouteKey r = k) →
      (recommendRoute recRowsCE).length < 3 → k ∈ recommendRoute recRowsCE) :=
  recommendRoute_amended recRowsCE

/-! ## Claim C6 — dataset replacement on re-ingestion -/

/-- C6 counterexample: the part_001 `importCSV` prepends each new batch to the
previous rows (`setRows(prev => [...normalized, ...prev].slice(0, 200000))`),
so ingesting `[rawC]` after `[rawA, rawB]` leaves the first batch's rows in
the dataset — not only the second dataset's rows. -/
theorem ingestion_replacement_counterexample :
    importCSVRows nowV [rawC] (importCSVRows nowV [rawA, rawB] []) =
      [normalizeP1 nowV rawC, normalizeP1 nowV rawA, normalizeP1 nowV rawB] ∧
    normalizeP1 nowV rawA ∈
      importCSVRows nowV [rawC] (importCSVRows nowV [rawA, rawB] []) ∧
    importCSVRows nowV [rawC] (importCSVRows nowV [rawA, rawB] []) ≠
      [rawC].map (normalizeP1 nowV) := by
  have h1 : importCSVRows nowV [rawA, rawB] [] =
      [normalizeP1 nowV rawA, normalizeP1 nowV rawB] := by
    rw [importCSVRows_of_le nowV [rawA, rawB] [] (by norm_num)]
    simp
  have h2 : importCSVRows nowV [rawC] (importCSVRows nowV [rawA, rawB] []) =
      [normalizeP1 nowV rawC, normalizeP1 nowV rawA, normalizeP1 nowV rawB] := by
    rw [h1, importCSVRows_of_le nowV [rawC] _ (by norm_num)]
    simp
  refine ⟨h2, by rw [h2]; simp, ?_⟩
  rw [h2]
  intro hcontra
  have := congrArg List.length hcontra
  simp at this

/-- C6 (amended): the Dashboard's `onParsed` replaces the row state wholesale
(the derived views depend only on the new batch), while the part_001
`importCSV` *accumulates*: a second ingestion prepends its normalized rows to
the first batch's rows (capped at 200000), so earlier rows persist there. -/
theorem ingestion_replacement (d prev : List Row) (nowTs : JSVal)
    (p1 p2 : List RawRec) (h : p2.length + p1.length ≤ 200000) :
    onParsedRows d prev = d ∧
    statsByRoute (onParsedRows d prev) = statsByRoute d ∧
    importCSVRows nowTs p2 (importCSVRows nowTs p1 []) =
      p2.map (normalizeP1 nowTs) ++ p1.map (normalizeP1 nowTs) := by
  have h1 : importCSVRows nowTs p1 [] = p1.map (normalizeP1 nowTs) ++ [] :=
    importCSVRows_of_le nowTs p1 [] (by simpa using by omega)
  refine ⟨rfl, rfl, ?_⟩
  rw [h1, List.append_nil, importCSVRows_of_le nowTs p2 _ (by simp; omega)]

theorem ingestion_replacement_witness :
    ([rawC] : List RawRec).length + ([rawA, rawB] : List RawRec).length ≤ 200000 ∧
    (onParsedRows [minuteRow] [nullTimeRow] = [minuteRow] ∧
     statsByRoute (onParsedRows [minuteRow] [nullTimeRow]) = statsByRoute [minuteRow] ∧
     importCSVRows nowV [rawC] (importCSVRows nowV [rawA, rawB] []) =
       [rawC].map (normalizeP1 nowV) ++ [rawA, rawB].map (normalizeP1 nowV)) :=
  ⟨by norm_num,
   ingestion_replacement [minuteRow] [nullTimeRow] nowV [rawA, rawB] [rawC] (by norm_num)⟩

/-! ## Claim C8 — normalized routes are never empty -/

/-- C8 counterexample: the Dashboard route key is `r[routeCol] ?? "Unknown"`,
which replaces only null/undefined.  An empty-string route cell therefore
yields the *empty* route key — a materialized `NormalizedRow`-level route that
is neither a non-empty coerced string nor `"Unknown"`. -/
theorem route_nonempty_counterexample :
    dashRouteKey emptyRouteRow = "" ∧
    ("" : String) ≠ "Unknown" ∧
    (statsByRoute [emptyRouteRow]).map RouteStat.route = [""] := by
  refine ⟨by decide, by decide, ?_⟩
  simp [statsByRoute, dashRouteAgg, foldBuckets, stepBucket, updateBuckets,
    bumpBucket, findBucket, bucketKeys, dashRouteKey, dashValue?, isNumeric,
    jsNumber?, jsKeyString, jsNullish, emptyRouteRow]

/-- C8 (amended): the part_001 `importCSV` route is picked by JS truthiness
with fallback `"Unknown"`, so it is always truthy — in particular never the
empty string and never nullish; the Dashboard route key falls back to
`"Unknown"` only for null/undefined route cells (an empty-string cell passes
through, see the counterexample).  No row is dropped for a missing route. -/
theorem route_nonempty (nowTs : JSVal) (o : RawRec) (r : Row)
    (h : r.routeCell = .null ∨ r.routeCell = .undef) :
    truthy (normalizeP1 nowTs o).route = true ∧
    (normalizeP1 nowTs o).route ≠ .str "" ∧
    dashRouteKey r = "Unknown" := by
  have ht : truthy (normalizeP1 nowTs o).route = true := by
    simp only [normalizeP1]
    simp only [rawRouteCell, truthy_jsOr]
    simp [truthy]
  refine ⟨ht, ?_, ?_⟩
  · intro heq
    rw [heq] at ht
    simp [truthy] at ht
  · rcases h with h | h <;> simp [dashRouteKey, jsNullish, h, jsKeyString]

theorem route_nonempty_witness :
    (nullRouteRow.routeCell = JSVal.null ∨ nullRouteRow.routeCell = JSVal.undef) ∧
    (truthy (normalizeP1 nowV rawA).route = true ∧
     (normalizeP1 nowV rawA).route ≠ .str "" ∧
     dashRouteKey nullRouteRow = "Unknown") :=
  ⟨Or.inl rfl, route_nonempty nowV rawA nullRouteRow (Or.inl rfl)⟩

/-! ## Claim C9 — latitude/longitude coercion -/

/-- C9 counterexample: `importCSV` coerces `lat` with `Number(...) || null` and
performs *no* geographic range check: `lat: 95` is kept as 95, not nulled; and
the MapView marker predicate only requires finite coercions, so the row is
rendered as a marker rather than excluded. -/
theorem lat_normalization_counterexample :
    (normalizeP1 nowV latRow95).lat = JSVal.num 95 ∧
    JSVal.num 95 ≠ JSVal.null ∧
    rendersMarker (JSVal.num 95) (JSVal.num 30) = true := by
  refine ⟨?_, by decide, by decide⟩
  simp [normalizeP1, numOrNull, rawLatCell, latRow95, jsOr, truthy, jsNumber?]

/-- C9 (amended): normalization nulls `lat` exactly when `Number` coercion of
the latitude cell is `NaN` or 0 (so non-numeric → null, but an out-of-range
finite value such as 95 — and even the valid coordinate 0 — is *not* range
checked: nonzero numbers are kept verbatim); and the lat field plays no role
in route aggregation, so a row keeps contributing to the aggregate views
whatever its `lat` is. -/
theorem lat_normalization (nowTs : JSVal) (o : RawRec) (rows : List P1Row)
    (r : P1Row) (x : JSVal) :
    (((normalizeP1 nowTs o).lat = .null ∧
        (jsNumber? (rawLatCell o) = none ∨ jsNumber? (rawLatCell o) = some 0)) ∨
      (∃ q : ℚ, q ≠ 0 ∧ jsNumber? (rawLatCell o) = some q ∧
        (normalizeP1 nowTs o).lat = .num q)) ∧
    p1RouteAgg ({ r with lat := x } :: rows) = p1RouteAgg (r :: rows) := by
  constructor
  · cases hn : jsNumber? (rawLatCell o) with
    | none => exact Or.inl ⟨by simp [normalizeP1, numOrNull, hn], Or.inl rfl⟩
    | some q =>
      by_cases hq : q = 0
      · subst hq
        exact Or.inl ⟨by simp [normalizeP1, numOrNull, hn], Or.inr rfl⟩
      · exact Or.inr ⟨q, hq, rfl, by simp [normalizeP1, numOrNull, hn, hq]⟩
  · cases r
    rfl

end Traffic
